import Mathlib

/-!
Shallow embedding of `calval/normalized_scene.py`: the generic string-codec
identity type (`StringableTuple`, instantiated at `NormalizedScenesetId` and
`NormalizedSceneId`), the storage paths derived from a scene identity, and the
lazy `FilebasedScene` loader.

Python strings are modelled as `List Char` (`PyStr`), compared by code point,
which matches CPython's string ordering on the ASCII data these identities
hold.  Python exceptions are modelled by `Except PyError`; the constructors of
`PyError` follow the specification's error taxonomy (the code raises the
corresponding built-in exceptions: `TypeError` from the namedtuple constructor,
`ValueError` from `strptime`/`json`, `AssertionError` from the directory scan,
`AttributeError` from an unset attribute).
-/

/-- Python strings, modelled as lists of characters compared by code point. -/
abbrev PyStr := List Char

/-- Lean string literal to `PyStr` model. -/
def pys (s : String) : PyStr := s.toList

/-- Error taxonomy of the specification, covering the exceptions the code
raises: token-count mismatch or bad timestamp in `from_str`
(MalformedIdentityError), unknown keyword in `copy_with` (UnknownFieldError),
a directory with not exactly one metadata file (AmbiguousMetadataError),
unreadable or unparsable metadata content (MetadataParseError), and access to
a never-assigned attribute (Python `AttributeError`). -/
inductive PyError where
  | malformedIdentity
  | unknownField
  | ambiguousMetadata
  | metadataParse
  | attributeError
deriving DecidableEq, Repr

/-- Python `s.split(sep)` for a one-character separator.  As in Python,
`"".split(sep) == ['']` and separators delimit (possibly empty) tokens. -/
def splitOnChar (sep : Char) : PyStr → List PyStr
  | [] => [[]]
  | c :: cs =>
    if c = sep then [] :: splitOnChar sep cs
    else
      match splitOnChar sep cs with
      | [] => [[c]]
      | t :: ts => (c :: t) :: ts

/-- Python `sep.join(tokens)` for a one-character separator. -/
def joinSep (sep : Char) : List PyStr → PyStr
  | [] => []
  | [t] => t
  | t :: u :: ts => t ++ sep :: joinSep sep (u :: ts)

/-- Python string `<`: lexicographic by code point, a proper prefix is
smaller. -/
def strLt : PyStr → PyStr → Bool
  | _, [] => false
  | [], _ :: _ => true
  | a :: as, b :: bs => if a = b then strLt as bs else decide (a < b)

/-- Python tuple `<` on same-length tuples of strings: compare component-wise,
the first unequal component decides via string `<`. -/
def tupLt : List PyStr → List PyStr → Bool
  | _, [] => false
  | [], _ :: _ => true
  | a :: as, b :: bs => if a = b then tupLt as bs else strLt a b

/-- Decimal digit character of a value below ten. -/
def digitChar (n : Nat) : Char :=
  if n = 0 then '0' else if n = 1 then '1' else if n = 2 then '2'
  else if n = 3 then '3' else if n = 4 then '4' else if n = 5 then '5'
  else if n = 6 then '6' else if n = 7 then '7' else if n = 8 then '8' else '9'

/-- Numeric value of a decimal digit character. -/
def charToDigit (c : Char) : Nat :=
  if c = '0' then 0 else if c = '1' then 1 else if c = '2' then 2
  else if c = '3' then 3 else if c = '4' then 4 else if c = '5' then 5
  else if c = '6' then 6 else if c = '7' then 7 else if c = '8' then 8 else 9

/-- Value of a string of decimal digits (most significant first). -/
def digitsToNat (s : PyStr) : Nat :=
  s.foldl (fun a c => a * 10 + charToDigit c) 0

/-- Fuel-driven decimal printing helper (fuel larger than the digit count). -/
def natDigitsCore : Nat → Nat → PyStr
  | 0, _ => []
  | fuel + 1, n =>
    if n < 10 then [digitChar n]
    else natDigitsCore fuel (n / 10) ++ [digitChar (n % 10)]

/-- Decimal digits of a natural number, most significant first. -/
def natDigits (n : Nat) : PyStr := natDigitsCore (n + 1) n

/-- Zero-padded decimal of minimum width `w`, as produced by `strftime`
directives `%Y` (w = 4) and `%m/%d/%H/%M` (w = 2). -/
def padNum (w n : Nat) : PyStr :=
  List.replicate (w - (natDigits n).length) '0' ++ natDigits n

/-- A `datetime.datetime` at minute resolution, the payload of the
`timestamp` field. -/
structure Datetime where
  year : Nat
  month : Nat
  day : Nat
  hour : Nat
  minute : Nat
deriving DecidableEq, Repr

/-- Gregorian leap-year rule, as used by `datetime`. -/
def isLeap (y : Nat) : Bool := y % 4 == 0 && (y % 100 != 0 || y % 400 == 0)

/-- Length of a month, as validated by `datetime`. -/
def daysInMonth (y m : Nat) : Nat :=
  if m = 2 then (if isLeap y then 29 else 28)
  else if m = 4 ∨ m = 6 ∨ m = 9 ∨ m = 11 then 30 else 31

/-- The field ranges `datetime.strptime` accepts with format
`'%Y%m%d%H%M'` (year below 10000 because `%Y` consumes at most four
digits; the remaining ranges are the `datetime` validity checks). -/
def Datetime.validRanges (t : Datetime) : Prop :=
  1 ≤ t.year ∧ t.year ≤ 9999 ∧ 1 ≤ t.month ∧ t.month ≤ 12 ∧
  1 ≤ t.day ∧ t.day ≤ daysInMonth t.year t.month ∧
  t.hour ≤ 23 ∧ t.minute ≤ 59

instance (t : Datetime) : Decidable t.validRanges := by
  unfold Datetime.validRanges
  infer_instance

/-- The class's `timestamp_fmt = '%Y%m%d%H%M'` applied by `strftime`:
four-digit year then two-digit month, day, hour and minute, each
zero-padded. -/
def strftime (t : Datetime) : PyStr :=
  padNum 4 t.year ++ padNum 2 t.month ++ padNum 2 t.day ++
    padNum 2 t.hour ++ padNum 2 t.minute

/-- `datetime.strptime(s, '%Y%m%d%H%M')` on the canonical twelve-digit form
of the format (four-digit year, two digits for each remaining field, exactly
the strings `strftime` emits for representable datetimes; CPython's regex
consumes them greedily as 4+2+2+2+2).  Shorter all-digit inputs, which CPython
would split differently, do not occur in this system's encodings and are
mapped to failure. -/
def strptime (s : PyStr) : Option Datetime :=
  if s.length = 12 ∧ s.all Char.isDigit then
    let t : Datetime :=
      ⟨digitsToNat (s.take 4), digitsToNat ((s.drop 4).take 2),
       digitsToNat ((s.drop 6).take 2), digitsToNat ((s.drop 8).take 2),
       digitsToNat ((s.drop 10).take 2)⟩
    if t.validRanges then some t else none
  else none

/-- Value held by one field of an identity tuple.  The namedtuple fields are
dynamically typed; `_tostr` dispatches on `hasattr(x, 'strftime')`, which this
sum type mirrors: a timestamp field holds a `Datetime`, every other field a
string. -/
inductive FieldVal where
  | str (s : PyStr)
  | dt (t : Datetime)
deriving DecidableEq, Repr

/-- `StringableTuple._tostr`: a datetime renders via `strftime`, anything else
via `str(x)` (identity on strings). -/
def FieldVal.tostr : FieldVal → PyStr
  | .str s => s
  | .dt t => strftime t

/-- `scenesetid_params = namedtuple('scenesetid_params', ['satellite',
'tile_id', 'timestamp'])` — the field tuple of `NormalizedScenesetId`. -/
structure scenesetid_params where
  satellite : FieldVal
  tile_id : FieldVal
  timestamp : FieldVal
deriving DecidableEq, Repr

/-- `sceneid_params = namedtuple('sceneid_params', ['product', 'satellite',
'tile_id', 'timestamp', 'tag'])` with default tag `'0'` — the field tuple of
`NormalizedSceneId`. -/
structure sceneid_params where
  product : FieldVal
  satellite : FieldVal
  tile_id : FieldVal
  timestamp : FieldVal
  tag : FieldVal
deriving DecidableEq, Repr

namespace NormalizedScenesetId

/-- `StringableTuple.str_tuple` at `NormalizedScenesetId`: `_tostr` of every
field, in declared order. -/
def str_tuple (p : scenesetid_params) : List PyStr :=
  [p.satellite.tostr, p.tile_id.tostr, p.timestamp.tostr]

/-- `StringableTuple.__str__`: the `'_'`-joined `str_tuple`. -/
def encode (p : scenesetid_params) : PyStr := joinSep '_' (str_tuple p)

/-- `StringableTuple.__eq__`: equality of the `str_tuple`s (a Python tuple
comparison, component-wise). -/
def eq (p q : scenesetid_params) : Bool := decide (str_tuple p = str_tuple q)

/-- `StringableTuple.__lt__`: Python `<` on the `str_tuple`s, i.e.
lexicographic tuple comparison whose components compare as strings. -/
def lt (p q : scenesetid_params) : Bool := tupLt (str_tuple p) (str_tuple q)

/-- `StringableTuple.from_str` at `NormalizedScenesetId`: split on `'_'`; the
namedtuple constructor needs exactly three tokens (no defaults), otherwise
`TypeError` (spec: MalformedIdentityError); then `_fromstr` parses the
`timestamp` token with `strptime` (failure raises `ValueError`, spec:
MalformedIdentityError) and passes the other tokens through. -/
def from_str (s : PyStr) : Except PyError scenesetid_params :=
  match splitOnChar '_' s with
  | [a, b, c] =>
    match strptime c with
    | some t => .ok ⟨.str a, .str b, .dt t⟩
    | none => .error .malformedIdentity
  | _ => .error .malformedIdentity

/-- `StringableTuple.copy_with` at `NormalizedScenesetId`: the keyword
overrides update the field dict; a key that is not a declared field makes the
namedtuple constructor raise `TypeError` (spec: UnknownFieldError).  Overrides
are modelled as an association list, applied left to right. -/
def copy_with (p : scenesetid_params) :
    List (String × FieldVal) → Except PyError scenesetid_params
  | [] => .ok p
  | (k, v) :: rest =>
    if k = "satellite" then copy_with ⟨v, p.tile_id, p.timestamp⟩ rest
    else if k = "tile_id" then copy_with ⟨p.satellite, v, p.timestamp⟩ rest
    else if k = "timestamp" then copy_with ⟨p.satellite, p.tile_id, v⟩ rest
    else .error .unknownField

end NormalizedScenesetId

namespace NormalizedSceneId

/-- `StringableTuple.str_tuple` at `NormalizedSceneId`: `_tostr` of every
field, in declared order (five components, tag included). -/
def str_tuple (p : sceneid_params) : List PyStr :=
  [p.product.tostr, p.satellite.tostr, p.tile_id.tostr,
   p.timestamp.tostr, p.tag.tostr]

/-- `StringableTuple.__str__`: the `'_'`-joined `str_tuple`. -/
def encode (p : sceneid_params) : PyStr := joinSep '_' (str_tuple p)

/-- `StringableTuple.__eq__`: equality of the `str_tuple`s. -/
def eq (p q : sceneid_params) : Bool := decide (str_tuple p = str_tuple q)

/-- `StringableTuple.__lt__`: Python `<` on the `str_tuple`s. -/
def lt (p q : sceneid_params) : Bool := tupLt (str_tuple p) (str_tuple q)

/-- `StringableTuple.from_str` at `NormalizedSceneId`: split on `'_'`; the
namedtuple constructor accepts four tokens (tag defaults to `'0'`) or five,
otherwise `TypeError` (spec: MalformedIdentityError); `_fromstr` parses the
`timestamp` token with `strptime` and passes the other tokens (including a
defaulted tag) through. -/
def from_str (s : PyStr) : Except PyError sceneid_params :=
  match splitOnChar '_' s with
  | [p, a, b, c] =>
    match strptime c with
    | some t => .ok ⟨.str p, .str a, .str b, .dt t, .str [ '0' ]⟩
    | none => .error .malformedIdentity
  | [p, a, b, c, g] =>
    match strptime c with
    | some t => .ok ⟨.str p, .str a, .str b, .dt t, .str g⟩
    | none => .error .malformedIdentity
  | _ => .error .malformedIdentity

/-- `StringableTuple.copy_with` at `NormalizedSceneId`. -/
def copy_with (p : sceneid_params) :
    List (String × FieldVal) → Except PyError sceneid_params
  | [] => .ok p
  | (k, v) :: rest =>
    if k = "product" then copy_with ⟨v, p.satellite, p.tile_id, p.timestamp, p.tag⟩ rest
    else if k = "satellite" then copy_with ⟨p.product, v, p.tile_id, p.timestamp, p.tag⟩ rest
    else if k = "tile_id" then copy_with ⟨p.product, p.satellite, v, p.timestamp, p.tag⟩ rest
    else if k = "timestamp" then copy_with ⟨p.product, p.satellite, p.tile_id, v, p.tag⟩ rest
    else if k = "tag" then copy_with ⟨p.product, p.satellite, p.tile_id, p.timestamp, v⟩ rest
    else .error .unknownField

/-- `NormalizedSceneId.dir_path`: `'/'.join(self.str_tuple)` — all five
components of the `str_tuple`, the tag included. -/
def dir_path (p : sceneid_params) : PyStr := joinSep '/' (str_tuple p)

/-- Scene-path stem, `'/'.join([self.dir_path(), str(self)])` — the method
called `scenepath_prefix` in the source. -/
def scenepathStem (p : sceneid_params) : PyStr :=
  dir_path p ++ '/' :: encode p

/-- `NormalizedSceneId.metadata_path`: the scene-path stem followed by
`'_metadata.json'`. -/
def metadata_path (p : sceneid_params) : PyStr :=
  scenepathStem p ++ pys "_metadata.json"

/-- `NormalizedSceneId.band_path`: the scene-path stem followed by
`'_{band}.tif'`. -/
def band_path (p : sceneid_params) (band : PyStr) : PyStr :=
  scenepathStem p ++ '_' :: (band ++ pys ".tif")

end NormalizedSceneId

/-- Parsed JSON value, the result of `json.load` on the metadata file. -/
inductive Json where
  | null
  | bool (b : Bool)
  | num (n : Int)
  | str (s : PyStr)
  | arr (xs : List Json)
  | obj (fields : List (String × Json))

/-- Band name to location string, the `band_urls` mapping. -/
abbrev BandUrls := List (String × PyStr)

/-- The filesystem as seen through the calls `FilebasedScene` makes:
`os.path.isfile`, `os.path.isdir`, `glob.glob(os.path.join(path,
'*_metadata.json'))`, `json.load(open(p))` (`none` models an unreadable file
or unparsable content), and `os.path.abspath(os.path.dirname(p))` (which
depends on the process working directory, hence part of the environment). -/
structure FileSystem where
  isFile : PyStr → Bool
  isDir : PyStr → Bool
  listMetadataFiles : PyStr → List PyStr
  readJson : PyStr → Option Json
  abspathDirname : PyStr → PyStr

/-- Attribute state of a `FilebasedScene` object.  `metadata_path` and `path`
model the `_metadata_path`/`_path` attributes (`none` = never assigned;
reading an unassigned attribute raises `AttributeError`).  `band_urls_attr`
is the `band_urls` argument stored at construction, which shadows the lazy
property.  `metadata_cache` is the memoization slot of the `metadata`
cached property. -/
structure FilebasedScene where
  metadata_path : Option PyStr
  path : Option PyStr
  band_urls_attr : Option BandUrls
  metadata_cache : Option Json

/-- `FilebasedScene.__init__`: store `band_urls` if given; if `path` is a
file, it is the metadata path and `_path` is its absolute directory; if it is
a directory, glob `*_metadata.json` in it and `assert` exactly one match
(spec: AmbiguousMetadataError on zero or several); if it is neither, fall
through without assigning `_metadata_path`/`_path` and without raising. -/
def FilebasedScene.init (fs : FileSystem) (path : PyStr)
    (band_urls : Option BandUrls) : Except PyError FilebasedScene :=
  if fs.isFile path then
    .ok ⟨some path, some (fs.abspathDirname path), band_urls, none⟩
  else if fs.isDir path then
    match fs.listMetadataFiles path with
    | [f] => .ok ⟨some f, some path, band_urls, none⟩
    | _ => .error .ambiguousMetadata
  else
    .ok ⟨none, none, band_urls, none⟩

/-- Modelled from the spec: `calval.utils.cached_property` is imported by the
source but its module is not in the repository snapshot; the spec describes it
as "computed at most once, on first access, and cached for the object's
lifetime", with an error leaving "the lazy-resolution cache slot ...
unresolved".  One access to `FilebasedScene.metadata`: a filled cache slot is
returned as is with no file read; otherwise `json.load(open(self._metadata_path))`
runs — `AttributeError` if `_metadata_path` was never assigned, a read/parse
failure (spec: MetadataParseError) caches nothing, and a parsed value fills
the slot.  The result carries the value, the successor object state, and the
number of underlying file reads this access performed. -/
def FilebasedScene.metadataAccess (fs : FileSystem) (sc : FilebasedScene) :
    Except PyError (Json × FilebasedScene × Nat) :=
  match sc.metadata_cache with
  | some j => .ok (j, sc, 0)
  | none =>
    match sc.metadata_path with
    | none => .error .attributeError
    | some p =>
      match fs.readJson p with
      | none => .error .metadataParse
      | some j => .ok (j, ⟨sc.metadata_path, sc.path, sc.band_urls_attr, some j⟩, 1)

/-- A one-scene directory `d` whose only metadata file parses to an empty
JSON object; used to instantiate the lazy-loading theorems on a concrete
environment. -/
def fsSingle : FileSystem :=
  ⟨fun _ => false,
   fun p => decide (p = pys "d"),
   fun p => if p = pys "d" then [pys "d/x_metadata.json"] else [],
   fun p => if p = pys "d/x_metadata.json" then some (Json.obj []) else none,
   fun p => p⟩

theorem splitOnChar_sepfree (sep : Char) (t : PyStr) (h : sep ∉ t) :
    splitOnChar sep t = [t] := by
  induction t with
  | nil => rfl
  | cons c cs ih =>
    have hc : ¬c = sep := fun e => h (e ▸ List.mem_cons_self c cs)
    have hcs : sep ∉ cs := fun m => h (List.mem_cons_of_mem c m)
    rw [splitOnChar, if_neg hc, ih hcs]

theorem splitOnChar_append_cons (sep : Char) (t r : PyStr) (h : sep ∉ t) :
    splitOnChar sep (t ++ sep :: r) = t :: splitOnChar sep r := by
  induction t with
  | nil => simp [splitOnChar]
  | cons c cs ih =>
    have hc : ¬c = sep := fun e => h (e ▸ List.mem_cons_self c cs)
    have hcs : sep ∉ cs := fun m => h (List.mem_cons_of_mem c m)
    rw [List.cons_append, splitOnChar, if_neg hc, ih hcs]

theorem splitOnChar_joinSep (sep : Char) :
    ∀ ts : List PyStr, ts ≠ [] → (∀ t ∈ ts, sep ∉ t) →
      splitOnChar sep (joinSep sep ts) = ts
  | [], h, _ => absurd rfl h
  | [t], _, hfree => by
    rw [joinSep, splitOnChar_sepfree sep t (hfree t (List.mem_singleton_self t))]
  | t :: u :: ts, _, hfree => by
    rw [joinSep, splitOnChar_append_cons sep t _ (hfree t (List.mem_cons_self _ _)),
      splitOnChar_joinSep sep (u :: ts) (List.cons_ne_nil u ts)
        (fun x hx => hfree x (List.mem_cons_of_mem t hx))]

theorem joinSep_inj (sep : Char) (ts us : List PyStr)
    (hts : ts ≠ []) (hus : us ≠ [])
    (h1 : ∀ t ∈ ts, sep ∉ t) (h2 : ∀ t ∈ us, sep ∉ t) :
    joinSep sep ts = joinSep sep us ↔ ts = us := by
  constructor
  · intro h
    have := congrArg (splitOnChar sep) h
    rwa [splitOnChar_joinSep sep ts hts h1, splitOnChar_joinSep sep us hus h2] at this
  · intro h
    rw [h]

theorem strLt_irrefl (a : PyStr) : strLt a a = false := by
  induction a with
  | nil => rfl
  | cons c cs ih => rw [strLt, if_pos rfl, ih]

theorem strLt_append_align : ∀ (a b x y : PyStr), a.length = b.length →
    strLt (a ++ x) (b ++ y) = if a = b then strLt x y else strLt a b
  | [], [], x, y, _ => by simp
  | [], _ :: _, _, _, h => by simp at h
  | _ :: _, [], _, _, h => by simp at h
  | c :: as, d :: bs, x, y, h => by
    rw [List.cons_append, List.cons_append, strLt]
    by_cases hcd : c = d
    · subst hcd
      rw [if_pos rfl, strLt_append_align as bs x y (by simpa using h)]
      by_cases hab : as = bs
      · rw [if_pos hab, if_pos (by rw [hab])]
      · rw [if_neg hab, if_neg (by simpa using hab), strLt, if_pos rfl]
    · rw [if_neg hcd, if_neg (by simp [hcd]), strLt, if_neg hcd]

theorem tupLt_joinSep (sep : Char) :
    ∀ ts us : List PyStr, ts.map List.length = us.map List.length → ts ≠ [] →
      strLt (joinSep sep ts) (joinSep sep us) = tupLt ts us
  | [], _, _, hne => absurd rfl hne
  | _ :: _, [], h, _ => by simp at h
  | [t], [u], h, _ => by
    simp only [joinSep, tupLt]
    by_cases htu : t = u
    · subst htu
      rw [if_pos rfl, strLt_irrefl]
    · rw [if_neg htu]
  | [t], _ :: _ :: _, h, _ => by simp at h
  | _ :: _ :: _, [u], h, _ => by simp at h
  | t :: v :: ts, u :: w :: us, h, _ => by
    obtain ⟨h1, h2⟩ : t.length = u.length ∧
        (v :: ts).map List.length = (w :: us).map List.length := by simpa using h
    simp only [joinSep]
    rw [strLt_append_align t u _ _ h1]
    simp only [tupLt]
    by_cases htu : t = u
    · rw [if_pos htu, if_pos htu, strLt, if_pos rfl]
      exact tupLt_joinSep sep (v :: ts) (w :: us) h2 (List.cons_ne_nil _ _)
    · rw [if_neg htu, if_neg htu]

theorem charToDigit_digitChar (n : Nat) (h : n < 10) :
    charToDigit (digitChar n) = n := by
  interval_cases n <;> rfl

theorem digitChar_isDigit (n : Nat) : (digitChar n).isDigit = true := by
  unfold digitChar
  split_ifs <;> rfl

theorem digitsToNat_append_singleton (s : PyStr) (c : Char) :
    digitsToNat (s ++ [c]) = digitsToNat s * 10 + charToDigit c := by
  simp [digitsToNat, List.foldl_append]

theorem digitsToNat_natDigitsCore :
    ∀ fuel n : Nat, n < 10 ^ fuel → digitsToNat (natDigitsCore fuel n) = n := by
  intro fuel
  induction fuel with
  | zero =>
    intro n h
    interval_cases n
    rfl
  | succ f ih =>
    intro n h
    by_cases h10 : n < 10
    · rw [natDigitsCore, if_pos h10]
      show digitsToNat ([] ++ [digitChar n]) = n
      rw [digitsToNat_append_singleton, charToDigit_digitChar n h10]
      simp [digitsToNat]
    · rw [natDigitsCore, if_neg h10, digitsToNat_append_singleton,
        ih (n / 10) (by rw [Nat.div_lt_iff_lt_mul (by norm_num)]; calc
          n < 10 ^ (f + 1) := h
          _ = 10 ^ f * 10 := by rw [pow_succ]),
        charToDigit_digitChar (n % 10) (Nat.mod_lt _ (by norm_num))]
      omega

theorem natDigitsCore_length_le :
    ∀ fuel n k : Nat, n < 10 ^ k → 1 ≤ k → (natDigitsCore fuel n).length ≤ k := by
  intro fuel
  induction fuel with
  | zero =>
    intro n k _ _
    simp [natDigitsCore]
  | succ f ih =>
    intro n k h hk
    by_cases h10 : n < 10
    · rw [natDigitsCore, if_pos h10]
      simpa using hk
    · rw [natDigitsCore, if_neg h10, List.length_append]
      have hk2 : 2 ≤ k := by
        rcases Nat.lt_or_ge k 2 with hlt | hge
        · interval_cases k
          omega
        · exact hge
      have hdiv : n / 10 < 10 ^ (k - 1) := by
        rw [Nat.div_lt_iff_lt_mul (by norm_num)]
        calc n < 10 ^ k := h
        _ = 10 ^ (k - 1) * 10 := by
          rw [← pow_succ]
          congr 1
          omega
      have := ih (n / 10) (k - 1) hdiv (by omega)
      simp only [List.length_cons, List.length_nil]
      omega

theorem natDigitsCore_all_digits :
    ∀ fuel n : Nat, ∀ c ∈ natDigitsCore fuel n, c.isDigit = true := by
  intro fuel
  induction fuel with
  | zero =>
    intro n c hc
    simp [natDigitsCore] at hc
  | succ f ih =>
    intro n c hc
    by_cases h10 : n < 10
    · rw [natDigitsCore, if_pos h10] at hc
      rw [List.mem_singleton.mp hc]
      exact digitChar_isDigit n
    · rw [natDigitsCore, if_neg h10] at hc
      rcases List.mem_append.mp hc with h | h
      · exact ih (n / 10) c h
      · rw [List.mem_singleton.mp h]
        exact digitChar_isDigit (n % 10)

theorem lt_ten_pow_succ (n : Nat) : n < 10 ^ (n + 1) :=
  calc n < 2 ^ n := Nat.lt_two_pow n
  _ ≤ 10 ^ n := Nat.pow_le_pow_left (by norm_num) n
  _ < 10 ^ (n + 1) := Nat.pow_lt_pow_succ (by norm_num)

theorem digitsToNat_replicate_zero (k : Nat) (s : PyStr) :
    digitsToNat (List.replicate k '0' ++ s) = digitsToNat s := by
  induction k with
  | zero => rfl
  | succ m ih =>
    rw [List.replicate_succ, List.cons_append]
    show digitsToNat (List.replicate m '0' ++ s) = digitsToNat s
    exact ih

theorem digitsToNat_padNum (w n : Nat) : digitsToNat (padNum w n) = n := by
  rw [padNum, digitsToNat_replicate_zero, natDigits]
  exact digitsToNat_natDigitsCore (n + 1) n (lt_ten_pow_succ n)

theorem padNum_length (w n : Nat) (h : n < 10 ^ w) (hw : 1 ≤ w) :
    (padNum w n).length = w := by
  have hle : (natDigits n).length ≤ w := natDigitsCore_length_le (n + 1) n w h hw
  rw [padNum, List.length_append, List.length_replicate]
  omega

theorem padNum_all_digits (w n : Nat) : ∀ c ∈ padNum w n, c.isDigit = true := by
  intro c hc
  rcases List.mem_append.mp hc with h | h
  · rw [List.eq_of_mem_replicate h]
    rfl
  · exact natDigitsCore_all_digits (n + 1) n c h

theorem daysInMonth_le (y m : Nat) : daysInMonth y m ≤ 31 := by
  unfold daysInMonth
  split_ifs <;> omega

theorem strptime_strftime (t : Datetime) (h : t.validRanges) :
    strptime (strftime t) = some t := by
  obtain ⟨h1, h2, h3, h4, h5, h6, h7, h8⟩ := h
  have hy : t.year < 10 ^ 4 := by norm_num; omega
  have hmo : t.month < 10 ^ 2 := by norm_num; omega
  have hda : t.day < 10 ^ 2 := by
    have := daysInMonth_le t.year t.month
    norm_num
    omega
  have hho : t.hour < 10 ^ 2 := by norm_num; omega
  have hmi : t.minute < 10 ^ 2 := by norm_num; omega
  have lY := padNum_length 4 t.year hy (by norm_num)
  have lM := padNum_length 2 t.month hmo (by norm_num)
  have lD := padNum_length 2 t.day hda (by norm_num)
  have lH := padNum_length 2 t.hour hho (by norm_num)
  have lMi := padNum_length 2 t.minute hmi (by norm_num)
  have hs : strftime t = padNum 4 t.year ++ (padNum 2 t.month ++ (padNum 2 t.day ++
      (padNum 2 t.hour ++ padNum 2 t.minute))) := by
    simp [strftime, List.append_assoc]
  have hlen : (strftime t).length = 12 := by
    rw [hs]
    simp only [List.length_append]
    omega
  have hdig : (strftime t).all Char.isDigit = true := by
    rw [List.all_eq_true]
    intro c hc
    rw [hs] at hc
    simp only [List.mem_append] at hc
    rcases hc with h | h | h | h | h
    · exact padNum_all_digits 4 t.year c h
    · exact padNum_all_digits 2 t.month c h
    · exact padNum_all_digits 2 t.day c h
    · exact padNum_all_digits 2 t.hour c h
    · exact padNum_all_digits 2 t.minute c h
  have e1 : (strftime t).take 4 = padNum 4 t.year := by
    rw [hs]
    exact List.take_left' lY
  have d4 : (strftime t).drop 4 = padNum 2 t.month ++ (padNum 2 t.day ++
      (padNum 2 t.hour ++ padNum 2 t.minute)) := by
    rw [hs]
    exact List.drop_left' lY
  have e2 : ((strftime t).drop 4).take 2 = padNum 2 t.month := by
    rw [d4]
    exact List.take_left' lM
  have d6 : (strftime t).drop 6 = padNum 2 t.day ++ (padNum 2 t.hour ++ padNum 2 t.minute) := by
    have : (strftime t).drop 6 = ((strftime t).drop 4).drop 2 := by
      rw [List.drop_drop]
    rw [this, d4]
    exact List.drop_left' lM
  have e3 : ((strftime t).drop 6).take 2 = padNum 2 t.day := by
    rw [d6]
    exact List.take_left' lD
  have d8 : (strftime t).drop 8 = padNum 2 t.hour ++ padNum 2 t.minute := by
    have : (strftime t).drop 8 = ((strftime t).drop 6).drop 2 := by
      rw [List.drop_drop]
    rw [this, d6]
    exact List.drop_left' lD
  have e4 : ((strftime t).drop 8).take 2 = padNum 2 t.hour := by
    rw [d8]
    exact List.take_left' lH
  have d10 : (strftime t).drop 10 = padNum 2 t.minute := by
    have : (strftime t).drop 10 = ((strftime t).drop 8).drop 2 := by
      rw [List.drop_drop]
    rw [this, d8]
    exact List.drop_left' lH
  have e5 : ((strftime t).drop 10).take 2 = padNum 2 t.minute := by
    rw [d10, List.take_of_length_le (by rw [lMi])]
  unfold strptime
  rw [if_pos (And.intro hlen hdig)]
  simp only [e1, e2, e3, e4, e5, digitsToNat_padNum]
  rw [if_pos (show Datetime.validRanges ⟨t.year, t.month, t.day, t.hour, t.minute⟩ from
    ⟨h1, h2, h3, h4, h5, h6, h7, h8⟩)]

theorem strftime_no_underscore (t : Datetime) : '_' ∉ strftime t := by
  intro hm
  have hdig : ('_' : Char).isDigit = true := by
    have hs : strftime t = padNum 4 t.year ++ (padNum 2 t.month ++ (padNum 2 t.day ++
        (padNum 2 t.hour ++ padNum 2 t.minute))) := by
      simp [strftime, List.append_assoc]
    rw [hs] at hm
    simp only [List.mem_append] at hm
    rcases hm with h | h | h | h | h
    · exact padNum_all_digits 4 t.year _ h
    · exact padNum_all_digits 2 t.month _ h
    · exact padNum_all_digits 2 t.day _ h
    · exact padNum_all_digits 2 t.hour _ h
    · exact padNum_all_digits 2 t.minute _ h
  exact absurd hdig (by decide)

/-- C1 counterexample: the identities `SAT1_T_202401011200` and
`SAT10_A_202401011200` satisfy `A < B` under the code's `__lt__` (the string
tuples compare component-wise and `'SAT1' < 'SAT10'`), yet under plain
lexicographic ordering of the full encoded strings `encode(B) < encode(A)`
(at index 4, `'0' < '_'`), so `A < B` does not hold iff
`encode(A) < encode(B)`. -/
theorem claim1_counterexample :
    NormalizedScenesetId.lt
        ⟨.str (pys "SAT1"), .str (pys "T"), .dt ⟨2024, 1, 1, 12, 0⟩⟩
        ⟨.str (pys "SAT10"), .str (pys "A"), .dt ⟨2024, 1, 1, 12, 0⟩⟩ = true ∧
    strLt
        (NormalizedScenesetId.encode
          ⟨.str (pys "SAT1"), .str (pys "T"), .dt ⟨2024, 1, 1, 12, 0⟩⟩)
        (NormalizedScenesetId.encode
          ⟨.str (pys "SAT10"), .str (pys "A"), .dt ⟨2024, 1, 1, 12, 0⟩⟩) = false := by
  decide

/-- C1 (amended): for identities of the same type, `A == B` iff the tuples of
encoded field strings are equal, which — when no encoded field value contains
the separator `'_'` — holds iff `encode(A) == encode(B)`; `A < B` is the
lexicographic comparison of the tuples of encoded field strings compared
field-by-field (structured comparison), and it agrees with plain string
ordering of the joined encodings when corresponding encoded fields have equal
lengths (the general joined-string form of the original claim is refuted by
`claim1_counterexample`). -/
theorem claim1_eq_and_order (A B : scenesetid_params) (C D : sceneid_params)
    (hA : ∀ x ∈ NormalizedScenesetId.str_tuple A, '_' ∉ x)
    (hB : ∀ x ∈ NormalizedScenesetId.str_tuple B, '_' ∉ x)
    (hC : ∀ x ∈ NormalizedSceneId.str_tuple C, '_' ∉ x)
    (hD : ∀ x ∈ NormalizedSceneId.str_tuple D, '_' ∉ x) :
    (NormalizedScenesetId.eq A B = true ↔
      NormalizedScenesetId.encode A = NormalizedScenesetId.encode B) ∧
    (NormalizedSceneId.eq C D = true ↔
      NormalizedSceneId.encode C = NormalizedSceneId.encode D) ∧
    NormalizedScenesetId.lt A B =
      tupLt (NormalizedScenesetId.str_tuple A) (NormalizedScenesetId.str_tuple B) ∧
    NormalizedSceneId.lt C D =
      tupLt (NormalizedSceneId.str_tuple C) (NormalizedSceneId.str_tuple D) ∧
    ((NormalizedScenesetId.str_tuple A).map List.length =
        (NormalizedScenesetId.str_tuple B).map List.length →
      (NormalizedScenesetId.lt A B = true ↔
        strLt (NormalizedScenesetId.encode A) (NormalizedScenesetId.encode B) = true)) ∧
    ((NormalizedSceneId.str_tuple C).map List.length =
        (NormalizedSceneId.str_tuple D).map List.length →
      (NormalizedSceneId.lt C D = true ↔
        strLt (NormalizedSceneId.encode C) (NormalizedSceneId.encode D) = true)) := by
  refine ⟨?_, ?_, rfl, rfl, ?_, ?_⟩
  · rw [NormalizedScenesetId.eq, decide_eq_true_eq,
      NormalizedScenesetId.encode, NormalizedScenesetId.encode]
    exact (joinSep_inj '_' _ _ (by simp [NormalizedScenesetId.str_tuple])
      (by simp [NormalizedScenesetId.str_tuple]) hA hB).symm
  · rw [NormalizedSceneId.eq, decide_eq_true_eq,
      NormalizedSceneId.encode, NormalizedSceneId.encode]
    exact (joinSep_inj '_' _ _ (by simp [NormalizedSceneId.str_tuple])
      (by simp [NormalizedSceneId.str_tuple]) hC hD).symm
  · intro hmap
    rw [NormalizedScenesetId.lt, NormalizedScenesetId.encode, NormalizedScenesetId.encode,
      tupLt_joinSep '_' _ _ hmap (by simp [NormalizedScenesetId.str_tuple])]
  · intro hmap
    rw [NormalizedSceneId.lt, NormalizedSceneId.encode, NormalizedSceneId.encode,
      tupLt_joinSep '_' _ _ hmap (by simp [NormalizedSceneId.str_tuple])]

/-- Witness for `claim1_eq_and_order` at the concrete identities
`SAT1_T1_202401011200` and `SAT2_T1_202401011200`. -/
theorem claim1_eq_and_order_witness :
    NormalizedScenesetId.eq
        ⟨.str (pys "SAT1"), .str (pys "T1"), .dt ⟨2024, 1, 1, 12, 0⟩⟩
        ⟨.str (pys "SAT2"), .str (pys "T1"), .dt ⟨2024, 1, 1, 12, 0⟩⟩ = true ↔
      NormalizedScenesetId.encode
          ⟨.str (pys "SAT1"), .str (pys "T1"), .dt ⟨2024, 1, 1, 12, 0⟩⟩ =
        NormalizedScenesetId.encode
          ⟨.str (pys "SAT2"), .str (pys "T1"), .dt ⟨2024, 1, 1, 12, 0⟩⟩ :=
  (claim1_eq_and_order
    ⟨.str (pys "SAT1"), .str (pys "T1"), .dt ⟨2024, 1, 1, 12, 0⟩⟩
    ⟨.str (pys "SAT2"), .str (pys "T1"), .dt ⟨2024, 1, 1, 12, 0⟩⟩
    ⟨.str (pys "L1"), .str (pys "SAT1"), .str (pys "T1"), .dt ⟨2024, 1, 1, 12, 0⟩, .str (pys "0")⟩
    ⟨.str (pys "L2"), .str (pys "SAT1"), .str (pys "T1"), .dt ⟨2024, 1, 1, 12, 0⟩, .str (pys "0")⟩
    (by decide) (by decide) (by decide) (by decide)).1

/-- C2 counterexample: decoding `L1_SAT1_TILE42_202401011200_0` succeeds, but
`dir_path()` joins ALL five components of the string tuple — the tag
included — so it is `L1/SAT1/TILE42/202401011200/0`, not the claimed
four-component `L1/SAT1/TILE42/202401011200`. -/
theorem claim2_counterexample :
    NormalizedSceneId.from_str (pys "L1_SAT1_TILE42_202401011200_0") =
      Except.ok ⟨.str (pys "L1"), .str (pys "SAT1"), .str (pys "TILE42"),
        .dt ⟨2024, 1, 1, 12, 0⟩, .str (pys "0")⟩ ∧
    NormalizedSceneId.dir_path
        ⟨.str (pys "L1"), .str (pys "SAT1"), .str (pys "TILE42"),
          .dt ⟨2024, 1, 1, 12, 0⟩, .str (pys "0")⟩ ≠
      pys "L1/SAT1/TILE42/202401011200" := by
  constructor
  · rfl
  · decide

/-- C2 (amended): for the SceneIdentity decoded from
`L1_SAT1_TILE42_202401011200_0`, `dir_path()` is
`L1/SAT1/TILE42/202401011200/0` (five components: product, satellite, tile,
timestamp AND tag), `metadata_path()` is that directory followed by
`/L1_SAT1_TILE42_202401011200_0_metadata.json`, and `band_path('nir')` is the
same scene prefix followed by `_nir.tif`. -/
theorem claim2_paths :
    NormalizedSceneId.from_str (pys "L1_SAT1_TILE42_202401011200_0") =
      Except.ok ⟨.str (pys "L1"), .str (pys "SAT1"), .str (pys "TILE42"),
        .dt ⟨2024, 1, 1, 12, 0⟩, .str (pys "0")⟩ ∧
    NormalizedSceneId.dir_path
        ⟨.str (pys "L1"), .str (pys "SAT1"), .str (pys "TILE42"),
          .dt ⟨2024, 1, 1, 12, 0⟩, .str (pys "0")⟩ =
      pys "L1/SAT1/TILE42/202401011200/0" ∧
    NormalizedSceneId.metadata_path
        ⟨.str (pys "L1"), .str (pys "SAT1"), .str (pys "TILE42"),
          .dt ⟨2024, 1, 1, 12, 0⟩, .str (pys "0")⟩ =
      pys "L1/SAT1/TILE42/202401011200/0/L1_SAT1_TILE42_202401011200_0_metadata.json" ∧
    NormalizedSceneId.band_path
        ⟨.str (pys "L1"), .str (pys "SAT1"), .str (pys "TILE42"),
          .dt ⟨2024, 1, 1, 12, 0⟩, .str (pys "0")⟩ (pys "nir") =
      pys "L1/SAT1/TILE42/202401011200/0/L1_SAT1_TILE42_202401011200_0_nir.tif" := by
  exact ⟨rfl, by decide, by decide, by decide⟩

/-- C3 counterexample: `L1_SAT1_TILE42_202401011200` splits into four tokens,
which differs from the five-field arity of `sceneid_params`, yet decoding
against `NormalizedSceneId` succeeds (the tag defaults to `'0'`) instead of
failing with MalformedIdentityError. -/
theorem claim3_counterexample :
    (splitOnChar '_' (pys "L1_SAT1_TILE42_202401011200")).length = 4 ∧
    NormalizedSceneId.from_str (pys "L1_SAT1_TILE42_202401011200") =
      Except.ok ⟨.str (pys "L1"), .str (pys "SAT1"), .str (pys "TILE42"),
        .dt ⟨2024, 1, 1, 12, 0⟩, .str (pys "0")⟩ := by
  exact ⟨by decide, rfl⟩

/-- C3 (amended): decoding fails with MalformedIdentityError whenever the
separator-delimited token count cannot fill the namedtuple: any count other
than 3 for the 3-field `SceneSetIdentity`, and any count other than 4 or 5
for the 5-field `SceneIdentity` (whose trailing tag field has a default); in
particular decoding `"SAT1_TILE42"` (2 tokens) against SceneSetIdentity
fails with MalformedIdentityError. -/
theorem claim3_token_count (s : PyStr) :
    ((splitOnChar '_' s).length ≠ 3 →
      NormalizedScenesetId.from_str s = Except.error PyError.malformedIdentity) ∧
    ((splitOnChar '_' s).length ≠ 4 → (splitOnChar '_' s).length ≠ 5 →
      NormalizedSceneId.from_str s = Except.error PyError.malformedIdentity) := by
  constructor
  · intro h
    unfold NormalizedScenesetId.from_str
    split
    next a b c heq => exact absurd (by rw [heq]; rfl) h
    next => rfl
  · intro h4 h5
    unfold NormalizedSceneId.from_str
    split
    next p a b c heq => exact absurd (by rw [heq]; rfl) h4
    next p a b c g heq => exact absurd (by rw [heq]; rfl) h5
    next => rfl

/-- Witness for `claim3_token_count`: `"SAT1_TILE42"` has 2 tokens, and
decoding it against `NormalizedScenesetId` fails with
MalformedIdentityError. -/
theorem claim3_token_count_witness :
    NormalizedScenesetId.from_str (pys "SAT1_TILE42") =
      Except.error PyError.malformedIdentity :=
  (claim3_token_count (pys "SAT1_TILE42")).1 (by decide)

/-- C4: decode-of-encode round trip.  For every field tuple whose
string-encoded field values contain no `'_'` (and whose timestamp is a valid
canonical-format datetime: in-range fields and a four-digit year), decoding
the encoded string succeeds and yields an identity equal, under the code's
encoded-string equality `__eq__`, to the original — for both the 3-field
`NormalizedScenesetId` and the 5-field `NormalizedSceneId`. -/
theorem claim4_round_trip :
    (∀ (sat til : PyStr) (t : Datetime), t.validRanges → 1000 ≤ t.year →
      '_' ∉ sat → '_' ∉ til →
      ∃ q, NormalizedScenesetId.from_str
          (NormalizedScenesetId.encode ⟨.str sat, .str til, .dt t⟩) = Except.ok q ∧
        NormalizedScenesetId.eq q ⟨.str sat, .str til, .dt t⟩ = true) ∧
    (∀ (prd sat til tg : PyStr) (t : Datetime), t.validRanges → 1000 ≤ t.year →
      '_' ∉ prd → '_' ∉ sat → '_' ∉ til → '_' ∉ tg →
      ∃ q, NormalizedSceneId.from_str
          (NormalizedSceneId.encode ⟨.str prd, .str sat, .str til, .dt t, .str tg⟩) =
            Except.ok q ∧
        NormalizedSceneId.eq q ⟨.str prd, .str sat, .str til, .dt t, .str tg⟩ = true) := by
  constructor
  · intro sat til t hv _ hs1 hs2
    refine ⟨⟨.str sat, .str til, .dt t⟩, ?_, by rw [NormalizedScenesetId.eq]; exact decide_eq_true rfl⟩
    have hsplit : splitOnChar '_' (NormalizedScenesetId.encode ⟨.str sat, .str til, .dt t⟩) =
        [sat, til, strftime t] := by
      rw [NormalizedScenesetId.encode]
      refine splitOnChar_joinSep '_' [sat, til, strftime t] (by simp) ?_
      intro x hx
      simp only [List.mem_cons, List.not_mem_nil, or_false] at hx
      rcases hx with rfl | rfl | rfl
      · exact hs1
      · exact hs2
      · exact strftime_no_underscore t
    unfold NormalizedScenesetId.from_str
    simp only [hsplit, strptime_strftime t hv]
  · intro prd sat til tg t hv _ hs0 hs1 hs2 hs3
    refine ⟨⟨.str prd, .str sat, .str til, .dt t, .str tg⟩, ?_,
      by rw [NormalizedSceneId.eq]; exact decide_eq_true rfl⟩
    have hsplit : splitOnChar '_'
        (NormalizedSceneId.encode ⟨.str prd, .str sat, .str til, .dt t, .str tg⟩) =
        [prd, sat, til, strftime t, tg] := by
      rw [NormalizedSceneId.encode]
      refine splitOnChar_joinSep '_' [prd, sat, til, strftime t, tg] (by simp) ?_
      intro x hx
      simp only [List.mem_cons, List.not_mem_nil, or_false] at hx
      rcases hx with rfl | rfl | rfl | rfl | rfl
      · exact hs0
      · exact hs1
      · exact hs2
      · exact strftime_no_underscore t
      · exact hs3
    unfold NormalizedSceneId.from_str
    simp only [hsplit, strptime_strftime t hv]

/-- Witness for `claim4_round_trip` at `SAT1_TILE42_202401011200` (sceneset)
and `L1_SAT1_TILE42_202401011200_7` (scene). -/
theorem claim4_round_trip_witness :
    (∃ q, NormalizedScenesetId.from_str
        (NormalizedScenesetId.encode
          ⟨.str (pys "SAT1"), .str (pys "TILE42"), .dt ⟨2024, 1, 1, 12, 0⟩⟩) = Except.ok q ∧
      NormalizedScenesetId.eq q
        ⟨.str (pys "SAT1"), .str (pys "TILE42"), .dt ⟨2024, 1, 1, 12, 0⟩⟩ = true) ∧
    (∃ q, NormalizedSceneId.from_str
        (NormalizedSceneId.encode
          ⟨.str (pys "L1"), .str (pys "SAT1"), .str (pys "TILE42"),
            .dt ⟨2024, 1, 1, 12, 0⟩, .str (pys "7")⟩) = Except.ok q ∧
      NormalizedSceneId.eq q
        ⟨.str (pys "L1"), .str (pys "SAT1"), .str (pys "TILE42"),
          .dt ⟨2024, 1, 1, 12, 0⟩, .str (pys "7")⟩ = true) :=
  ⟨claim4_round_trip.1 (pys "SAT1") (pys "TILE42") ⟨2024, 1, 1, 12, 0⟩
      (by decide) (by decide) (by decide) (by decide),
    claim4_round_trip.2 (pys "L1") (pys "SAT1") (pys "TILE42") (pys "7") ⟨2024, 1, 1, 12, 0⟩
      (by decide) (by decide) (by decide) (by decide) (by decide) (by decide)⟩

/-- C9: decoding the 4-token string `L1_SAT1_TILE42_202401011200` against the
5-field `NormalizedSceneId` succeeds — the missing trailing tag is filled
with the namedtuple default `'0'` — and the result re-encodes to the input
string with `_0` appended. -/
theorem claim9_default_tag :
    NormalizedSceneId.from_str (pys "L1_SAT1_TILE42_202401011200") =
      Except.ok ⟨.str (pys "L1"), .str (pys "SAT1"), .str (pys "TILE42"),
        .dt ⟨2024, 1, 1, 12, 0⟩, .str (pys "0")⟩ ∧
    NormalizedSceneId.encode
        ⟨.str (pys "L1"), .str (pys "SAT1"), .str (pys "TILE42"),
          .dt ⟨2024, 1, 1, 12, 0⟩, .str (pys "0")⟩ =
      pys "L1_SAT1_TILE42_202401011200_0" := by
  exact ⟨rfl, by decide⟩

/-- C5: constructing a `FilebasedScene` from a directory whose
`*_metadata.json` glob has any number of matches other than one fails at
construction with AmbiguousMetadataError (the `assert len(fnames) == 1`),
returning no partial object; with exactly one match construction succeeds. -/
theorem claim5_ambiguous_metadata (fs : FileSystem) (path : PyStr)
    (burls : Option BandUrls)
    (hf : fs.isFile path = false) (hd : fs.isDir path = true) :
    ((fs.listMetadataFiles path).length ≠ 1 →
      FilebasedScene.init fs path burls = Except.error PyError.ambiguousMetadata) ∧
    (∀ f, fs.listMetadataFiles path = [f] →
      FilebasedScene.init fs path burls =
        Except.ok ⟨some f, some path, burls, none⟩) := by
  constructor
  · intro h
    unfold FilebasedScene.init
    rw [hf, if_neg Bool.false_ne_true, hd, if_pos rfl]
    split
    next f heq => exact absurd (by rw [heq]; rfl) h
    next => rfl
  · intro f h
    unfold FilebasedScene.init
    rw [hf, if_neg Bool.false_ne_true, hd, if_pos rfl, h]

/-- Witness for `claim5_ambiguous_metadata`: a directory with zero metadata
files makes construction fail with AmbiguousMetadataError. -/
theorem claim5_ambiguous_metadata_witness :
    FilebasedScene.init
      ⟨fun _ => false, fun _ => true, fun _ => [], fun _ => none, fun p => p⟩
      (pys "d") none = Except.error PyError.ambiguousMetadata :=
  (claim5_ambiguous_metadata
    ⟨fun _ => false, fun _ => true, fun _ => [], fun _ => none, fun p => p⟩
    (pys "d") none rfl rfl).1 (by decide)

/-- C6: for either identity type, `copy_with` fails with UnknownFieldError
whenever any keyword override's name is not one of the identity's declared
fields. -/
theorem claim6_unknown_field :
    (∀ (p : scenesetid_params) (ov : List (String × FieldVal)) (k : String) (v : FieldVal),
      (k, v) ∈ ov → k ≠ "satellite" → k ≠ "tile_id" → k ≠ "timestamp" →
      NormalizedScenesetId.copy_with p ov = Except.error PyError.unknownField) ∧
    (∀ (p : sceneid_params) (ov : List (String × FieldVal)) (k : String) (v : FieldVal),
      (k, v) ∈ ov → k ≠ "product" → k ≠ "satellite" → k ≠ "tile_id" →
      k ≠ "timestamp" → k ≠ "tag" →
      NormalizedSceneId.copy_with p ov = Except.error PyError.unknownField) := by
  constructor
  · intro p ov k v
    induction ov generalizing p with
    | nil =>
      intro hm _ _ _
      simp at hm
    | cons hd tl ih =>
      intro hm h1 h2 h3
      obtain ⟨y, w⟩ := hd
      unfold NormalizedScenesetId.copy_with
      rcases List.mem_cons.mp hm with he | he
      · obtain ⟨rfl, rfl⟩ := Prod.mk.injEq .. ▸ he
        rw [if_neg h1, if_neg h2, if_neg h3]
      · by_cases e1 : y = "satellite"
        · rw [if_pos e1]
          exact ih _ he h1 h2 h3
        · rw [if_neg e1]
          by_cases e2 : y = "tile_id"
          · rw [if_pos e2]
            exact ih _ he h1 h2 h3
          · rw [if_neg e2]
            by_cases e3 : y = "timestamp"
            · rw [if_pos e3]
              exact ih _ he h1 h2 h3
            · rw [if_neg e3]
  · intro p ov k v
    induction ov generalizing p with
    | nil =>
      intro hm _ _ _ _ _
      simp at hm
    | cons hd tl ih =>
      intro hm h1 h2 h3 h4 h5
      obtain ⟨y, w⟩ := hd
      unfold NormalizedSceneId.copy_with
      rcases List.mem_cons.mp hm with he | he
      · obtain ⟨rfl, rfl⟩ := Prod.mk.injEq .. ▸ he
        rw [if_neg h1, if_neg h2, if_neg h3, if_neg h4, if_neg h5]
      · by_cases e1 : y = "product"
        · rw [if_pos e1]
          exact ih _ he h1 h2 h3 h4 h5
        · rw [if_neg e1]
          by_cases e2 : y = "satellite"
          · rw [if_pos e2]
            exact ih _ he h1 h2 h3 h4 h5
          · rw [if_neg e2]
            by_cases e3 : y = "tile_id"
            · rw [if_pos e3]
              exact ih _ he h1 h2 h3 h4 h5
            · rw [if_neg e3]
              by_cases e4 : y = "timestamp"
              · rw [if_pos e4]
                exact ih _ he h1 h2 h3 h4 h5
              · rw [if_neg e4]
                by_cases e5 : y = "tag"
                · rw [if_pos e5]
                  exact ih _ he h1 h2 h3 h4 h5
                · rw [if_neg e5]

/-- Witness for `claim6_unknown_field`: `copy_with(bogus='x')` on a concrete
sceneset identity fails with UnknownFieldError. -/
theorem claim6_unknown_field_witness :
    NormalizedScenesetId.copy_with
      ⟨.str (pys "SAT1"), .str (pys "T1"), .dt ⟨2024, 1, 1, 12, 0⟩⟩
      [("bogus", .str (pys "x"))] = Except.error PyError.unknownField :=
  claim6_unknown_field.1
    ⟨.str (pys "SAT1"), .str (pys "T1"), .dt ⟨2024, 1, 1, 12, 0⟩⟩
    [("bogus", .str (pys "x"))] "bogus" (.str (pys "x"))
    (List.mem_singleton_self _) (by decide) (by decide) (by decide)

/-- C7 (cached_property modelled from the spec): over a directory with exactly
one `*_metadata.json` file, construction resolves the metadata file path but
leaves the metadata cache slot empty (the file is neither read nor parsed at
construction); the first `.metadata` access reads and parses it exactly once
(read count 1) and fills the cache; a second access on the resulting object
returns the same parsed mapping with zero further reads and leaves the state
unchanged (no transition back to the unresolved state). -/
theorem claim7_lazy_metadata (fs : FileSystem) (d f : PyStr) (j : Json)
    (burls : Option BandUrls)
    (hf : fs.isFile d = false) (hd : fs.isDir d = true)
    (hg : fs.listMetadataFiles d = [f]) (hr : fs.readJson f = some j) :
    ∃ sc sc' : FilebasedScene,
      FilebasedScene.init fs d burls = Except.ok sc ∧
      sc.metadata_cache = none ∧
      FilebasedScene.metadataAccess fs sc = Except.ok (j, sc', 1) ∧
      sc'.metadata_cache = some j ∧
      FilebasedScene.metadataAccess fs sc' = Except.ok (j, sc', 0) := by
  refine ⟨⟨some f, some d, burls, none⟩, ⟨some f, some d, burls, some j⟩, ?_, rfl, ?_, rfl, rfl⟩
  · unfold FilebasedScene.init
    rw [hf, if_neg Bool.false_ne_true, hd, if_pos rfl, hg]
  · simp [FilebasedScene.metadataAccess, hr]

/-- Witness for `claim7_lazy_metadata` on the concrete one-file directory
`fsSingle`. -/
theorem claim7_lazy_metadata_witness :
    ∃ sc sc' : FilebasedScene,
      FilebasedScene.init fsSingle (pys "d") none = Except.ok sc ∧
      sc.metadata_cache = none ∧
      FilebasedScene.metadataAccess fsSingle sc = Except.ok (Json.obj [], sc', 1) ∧
      sc'.metadata_cache = some (Json.obj []) ∧
      FilebasedScene.metadataAccess fsSingle sc' = Except.ok (Json.obj [], sc', 0) :=
  claim7_lazy_metadata fsSingle (pys "d") (pys "d/x_metadata.json") (Json.obj []) none
    rfl (by decide) (by simp [fsSingle]) (by simp [fsSingle])

/-- C8: `copy_with(tag='2')` produces a new identity whose re-encoded string
tuple differs from the original's only in the tag token: the product,
satellite, tile_id and timestamp fields are carried over unchanged (the
original value object is immutable and untouched). -/
theorem claim8_copy_with_tag (p : sceneid_params) :
    ∃ q, NormalizedSceneId.copy_with p [("tag", .str (pys "2"))] = Except.ok q ∧
      q.product = p.product ∧ q.satellite = p.satellite ∧ q.tile_id = p.tile_id ∧
      q.timestamp = p.timestamp ∧ q.tag = .str (pys "2") ∧
      NormalizedSceneId.str_tuple q =
        [p.product.tostr, p.satellite.tostr, p.tile_id.tostr,
          p.timestamp.tostr, pys "2"] :=
  ⟨⟨p.product, p.satellite, p.tile_id, p.timestamp, .str (pys "2")⟩,
    rfl, rfl, rfl, rfl, rfl, rfl, rfl⟩

/-- C10: constructing a `FilebasedScene` from a path that is neither an
existing file nor a directory raises nothing and returns an object whose
metadata-file location was never assigned; on such an object every `.metadata`
access fails (with `AttributeError`, reachable only after construction), under
any filesystem state. -/
theorem claim10_dangling_path (fs : FileSystem) (path : PyStr)
    (burls : Option BandUrls)
    (hf : fs.isFile path = false) (hd : fs.isDir path = false) :
    ∃ sc : FilebasedScene,
      FilebasedScene.init fs path burls = Except.ok sc ∧
      sc.metadata_path = none ∧ sc.metadata_cache = none ∧
      ∀ fs' : FileSystem,
        FilebasedScene.metadataAccess fs' sc = Except.error PyError.attributeError := by
  refine ⟨⟨none, none, burls, none⟩, ?_, rfl, rfl, fun _ => rfl⟩
  unfold FilebasedScene.init
  rw [hf, if_neg Bool.false_ne_true, hd, if_neg Bool.false_ne_true]

/-- Witness for `claim10_dangling_path` on an empty filesystem and the path
`nope`. -/
theorem claim10_dangling_path_witness :
    ∃ sc : FilebasedScene,
      FilebasedScene.init
          ⟨fun _ => false, fun _ => false, fun _ => [], fun _ => none, fun p => p⟩
          (pys "nope") none = Except.ok sc ∧
      sc.metadata_path = none ∧ sc.metadata_cache = none ∧
      ∀ fs' : FileSystem,
        FilebasedScene.metadataAccess fs' sc = Except.error PyError.attributeError :=
  claim10_dangling_path
    ⟨fun _ => false, fun _ => false, fun _ => [], fun _ => none, fun p => p⟩
    (pys "nope") none rfl rfl
